import Mathlib

/-
Verification of the S3 event-notification core
(`localstack/services/s3/notifications.py`): event matching, key filtering,
payload construction, destination validation and dispatch.

Python strings are modelled as Lean `String`, Python `None`-able values as
`Option`, raised exceptions as `Option`/`Except` results, and timestamps as
integer milliseconds since the epoch.  Dictionaries with a fixed set of keys
become structures whose optional keys are `Option` fields (`none` = key
absent).  In-place mutation of a configuration dictionary is modelled by
returning the mutated value alongside the result.
-/

/-! ## String helpers (Python primitives used by the source) -/

/-- Python `s.startswith(pre)`. -/
def strStarts (s pre : String) : Bool := pre.data.isPrefixOf s.data

/-- Python `s.endswith(post)`. -/
def strEnds (s post : String) : Bool := post.data.isSuffixOf s.data

/-- Python `s.lower()`. -/
def pyLower (s : String) : String := String.mk (s.data.map Char.toLower)

/-- `sub` occurs as a contiguous run inside `l`. -/
def listInfixOf (sub : List Char) : List Char → Bool
  | [] => sub.isEmpty
  | c :: rest => sub.isPrefixOf (c :: rest) || listInfixOf sub rest

/-- Python `sub in s` on strings: substring containment. -/
def strContains (s sub : String) : Bool := listInfixOf sub.data s.data

/-- Python `s[0 : s.rindex(':')]`: everything before the last colon.
`none` when the string has no colon, in which case `str.rindex` raises
`ValueError`. -/
def beforeLastColon (s : String) : Option String :=
  if ':' ∈ s.data then
    some (String.mk (((s.data.reverse).dropWhile (fun c => c ≠ ':')).tail.reverse))
  else none

/-- Python `s[s.rindex(':') + 1 :]`: everything after the last colon.
`none` when the string has no colon (`str.rindex` raises `ValueError`). -/
def afterLastColon (s : String) : Option String :=
  if ':' ∈ s.data then
    some (String.mk ((s.data.reverse.takeWhile (fun c => c ≠ ':')).reverse))
  else none

/-- Python `str.capitalize()`: first character upper-cased, the rest
lower-cased. -/
def pyCapitalize (s : String) : String :=
  match s.data with
  | [] => ""
  | c :: cs => String.mk (c.toUpper :: cs.map Char.toLower)

/-- Python `str.removeprefix(pre)`. -/
def pyRemovePre (s pre : String) : String :=
  if strStarts s pre then String.mk (s.data.drop pre.data.length) else s

/-- Python truthiness of an optional string (`None` and `""` are falsy). -/
def optStrTruthy : Option String → Bool
  | none => false
  | some v => v != ""

/-- Python `ctx.key_version_id and ctx.key_version_id != "null"`. -/
def versionTruthy : Option String → Bool
  | none => false
  | some v => v != "" && v != "null"

/-! ## Externals modelled from the spec -/

/-- Modelled from the spec: `timestamp_millis` (from `localstack.utils.time`,
not among the given sources) formats a timestamp at millisecond precision.
Times are modelled as integer milliseconds since the epoch, so formatting is
the identity. -/
def timestampMillis (t : Int) : Int := t

/-- Modelled from the spec: `parse_timestamp` (from `localstack.utils.time`,
not among the given sources) parses a formatted timestamp back; at the
millisecond-level modelling of time it is the identity. -/
def parseTimestamp (t : Int) : Int := t

/-- Modelled from the spec: `get_partition` (from `localstack.utils.aws.arns`,
not among the given sources) maps a region to its ARN partition name. -/
def getPartition (region : String) : String :=
  if strStarts region "cn-" then "aws-cn"
  else if strStarts region "us-gov-" then "aws-us-gov"
  else "aws"

/-- Modelled from the spec: the partition alternatives of
`ARN_PARTITION_REGEX` (from `localstack.utils.aws.arns`, not among the given
sources). -/
def arnPartitions : List String := ["aws", "aws-cn", "aws-us-gov", "aws-iso", "aws-iso-b"]

/-- Modelled from the spec: `re.match(f"{ARN_PARTITION_REGEX}:{service}:", arn)`,
i.e. the destination ARN must syntactically start with
`arn:<partition>:<service>:`. -/
def arnMatch (serviceName arn : String) : Bool :=
  arnPartitions.any fun p => strStarts arn ("arn:" ++ p ++ ":" ++ serviceName ++ ":")

/-- Modelled from the spec: `_create_invalid_argument_exc` (from
`localstack.services.s3.utils`, not among the given sources) builds a named
validation error carrying a message, the offending argument name and its
value. -/
structure InvalidArgument where
  message : String
  argName : String
  argValue : String
deriving DecidableEq

/-! ## Data model -/

/-- One entry of `Filter.Key.FilterRules`: a `{Name, Value}` pair. -/
structure FilterRule where
  name : String
  value : String
deriving DecidableEq

/-- A notification-configuration entry (`QueueConfiguration`,
`TopicConfiguration` or `LambdaFunctionConfiguration`; the ARN field name
differs per kind but is modelled uniformly as `arn`).  `filter` is the
flattened `Filter.Key.FilterRules` list, `none` when the `Filter` structure is
absent. -/
structure NotifConfigEntry where
  id : Option String
  arn : String
  events : List String
  filter : Option (List FilterRule)
deriving DecidableEq

/-- The per-bucket `NotificationConfiguration` mapping.  A `none` field means
the corresponding key is absent from the mapping; `EventBridgeConfiguration`
maps to a single (possibly empty) object rather than a list. -/
structure NotificationConfiguration where
  queueConfigurations : Option (List NotifConfigEntry)
  topicConfigurations : Option (List NotifConfigEntry)
  lambdaFunctionConfigurations : Option (List NotifConfigEntry)
  eventBridgeConfiguration : Option NotifConfigEntry
deriving DecidableEq

/-- `S3EventNotificationContext`: immutable snapshot of one trigger event.
`event_time` and `key_expiry` are integer milliseconds; `key_version_id`,
`key_storage_class` and `xray` may be Python `None`. -/
structure S3EventNotificationContext where
  request_id : String
  event_type : String
  event_time : Int
  account_id : String
  region : String
  bucket_name : String
  key_name : String
  xray : Option String
  bucket_location : String
  bucket_account_id : String
  caller : String
  key_size : Nat
  key_etag : String
  key_version_id : Option String
  key_expiry : Int
  key_storage_class : Option String
deriving DecidableEq

/-- `EVENT_OPERATION_MAP`: operation wire name to event type. -/
def eventOperationMap : List (String × String) :=
  [("PutObject", "s3:ObjectCreated:Put"),
   ("CopyObject", "s3:ObjectCreated:Copy"),
   ("CompleteMultipartUpload", "s3:ObjectCreated:CompleteMultipartUpload"),
   ("PostObject", "s3:ObjectCreated:Post"),
   ("PutObjectTagging", "s3:ObjectTagging:Put"),
   ("DeleteObjectTagging", "s3:ObjectTagging:Delete"),
   ("DeleteObject", "s3:ObjectRemoved:Delete"),
   ("DeleteObjects", "s3:ObjectRemoved:Delete"),
   ("PutObjectAcl", "s3:ObjectAcl:Put"),
   ("RestoreObject", "s3:ObjectRestore:Post")]

/-- `EVENT_OPERATION_MAP.get(request_context.operation.wire_name, "")` as used
by `S3EventNotificationContext.from_request_context_native`: the event type
placed in the context, defaulting to the empty string for unmapped
operations. -/
def eventTypeForOperation (wireName : String) : String :=
  (eventOperationMap.lookup wireName).getD ""

/-! ## Matching engine -/

/-- `_matching_event(events, event_name)`.  Returns `none` when the Python
code raises `ValueError` (from `event_name.rindex(':')` on an event name
without a colon that is not literally in the list). -/
def matchingEvent (events : List String) (eventName : String) : Option Bool :=
  if eventName ∈ events then some true
  else
    match beforeLastColon eventName with
    | none => none
    | some pre => some (decide ((pre ++ ":*") ∈ events))

/-- `_matching_filter(notification_filter, key_name)`.  An absent filter (or
absent/empty `FilterRules`) is modelled by `none` / `some []`. -/
def matchingFilter (nf : Option (List FilterRule)) (keyName : String) : Bool :=
  match nf with
  | none => true
  | some rules =>
    rules.all fun rule =>
      let name := pyLower rule.name
      if name == "prefix" && !strStarts keyName rule.value then false
      else if name == "suffix" && !strEnds keyName rule.value then false
      else true

/-- `BaseNotifier.should_notify(ctx, config)` (used by the SQS, SNS and Lambda
notifiers): `_matching_event(config["Events"], ctx.event_type) and
_matching_filter(config.get("Filter"), ctx.key_name)`.  `none` when
`_matching_event` raises. -/
def shouldNotify (ctx : S3EventNotificationContext) (config : NotifConfigEntry) : Option Bool :=
  match matchingEvent config.events ctx.event_type with
  | none => none
  | some b => some (b && matchingFilter config.filter ctx.key_name)

/-! ## Generic event record payload (`BaseNotifier._get_event_payload`) -/

/-- The record's `s3.object` block; `Option` fields are keys that may be
absent. -/
structure S3ObjectBlock where
  key : String
  sequencer : Option String
  versionId : Option String
  eTag : Option String
  size : Option Nat
deriving DecidableEq

/-- `glacierEventData.restoreEventData` added for completed restores. -/
structure GlacierRestoreEventData where
  lifecycleRestorationExpiryTime : Int
  lifecycleRestoreStorageClass : Option String
deriving DecidableEq

/-- The generic event record (used by the Queue and Topic notifiers).  The
source's nested dictionaries are flattened into one structure; static
placeholder fields are kept verbatim, and `xAmzRequestId` stands for the
`short_uid()` generated inside the builder (passed in as `freshRequestId`). -/
structure EventRecord where
  eventVersion : String
  eventSource : String
  awsRegion : String
  eventTime : Int
  eventName : String
  userIdentityPrincipalId : String
  sourceIPAddress : String
  xAmzRequestId : String
  xAmzId2 : String
  s3SchemaVersion : String
  configurationId : Option String
  bucketName : String
  bucketOwnerPrincipalId : String
  bucketArn : String
  obj : S3ObjectBlock
  glacierEventData : Option GlacierRestoreEventData
deriving DecidableEq

/-- `BaseNotifier._get_event_payload(ctx, config_id)` (the single record of
the returned `{"Records": [record]}`). -/
def getEventPayload (ctx : S3EventNotificationContext) (configId : Option String)
    (freshRequestId : String) : EventRecord :=
  let record : EventRecord := {
    eventVersion := "2.1"
    eventSource := "aws:s3"
    awsRegion := ctx.bucket_location
    eventTime := timestampMillis ctx.event_time
    eventName := pyRemovePre ctx.event_type "s3:"
    userIdentityPrincipalId := "AIDAJDPLRKLG7UEXAMPLE"
    sourceIPAddress := "127.0.0.1"
    xAmzRequestId := freshRequestId
    xAmzId2 := "eftixk72aD6Ap51TnqcoF8eFidJG9Z/2"
    s3SchemaVersion := "1.0"
    configurationId := configId
    bucketName := ctx.bucket_name
    bucketOwnerPrincipalId := "A3NL1KOZZKExample"
    bucketArn := "arn:" ++ getPartition ctx.region ++ ":s3:::" ++ ctx.bucket_name
    obj := { key := ctx.key_name, sequencer := some "0055AED6DCD90281E5",
             versionId := none, eTag := none, size := none }
    glacierEventData := none }
  let record :=
    if versionTruthy ctx.key_version_id then
      { record with obj := { record.obj with versionId := ctx.key_version_id } }
    else record
  let eventType := pyLower ctx.event_type
  let record :=
    if strContains eventType "created" || strContains eventType "restore" then
      if !strContains eventType "deletemarker" then
        { record with obj := { record.obj with eTag := some ctx.key_etag,
                                               size := some ctx.key_size } }
      else
        { record with obj := { record.obj with eTag := some ctx.key_etag } }
    else record
  let record :=
    if strContains ctx.event_type "ObjectTagging" || strContains ctx.event_type "ObjectAcl" then
      { record with eventVersion := "2.3",
                    obj := { record.obj with eTag := some ctx.key_etag, sequencer := none } }
    else record
  if strContains eventType "objectrestore:completed" then
    { record with
      glacierEventData := some
        { lifecycleRestorationExpiryTime := timestampMillis ctx.key_expiry,
          lifecycleRestoreStorageClass := ctx.key_storage_class },
      userIdentityPrincipalId := "AmazonCustomer:A3NL1KOZZKExample",
      eventTime := parseTimestamp record.eventTime + 500 }
  else record

/-! ## EventBridge entry payload (`EventBridgeNotifier._get_event_payload`) -/

/-- The `detail.object` block of the event-bus entry. -/
structure EBObjectBlock where
  key : String
  size : Option Nat
  etag : Option String
  sequencer : Option String
  versionId : Option String
deriving DecidableEq

/-- The flat `detail` object.  `sourceStorageClass` is doubly optional: the
outer `Option` is presence of the `source-storage-class` key, the inner is the
possibly-`None` storage class value. -/
structure EBDetail where
  version : String
  bucketName : String
  obj : EBObjectBlock
  requestId : String
  requester : String
  sourceIpAddress : Option String
  reason : Option String
  deletionType : Option String
  sourceStorageClass : Option (Option String)
  restoreExpiryTime : Option Int
deriving DecidableEq

/-- The `PutEventsRequestEntry` built for EventBridge (with `Detail` kept
structured instead of JSON-serialized). -/
structure EBEntry where
  source : String
  resources : List String
  time : Int
  traceHeader : Option String
  detailType : Option String
  detail : EBDetail
deriving DecidableEq

/-- `EventBridgeNotifier._get_event_payload(ctx)`.  Returns `none` when the
Python code raises (`event_type.rindex(":")` in the `ObjectCreated` branch on
an event type without a colon). -/
def ebGetEventPayload (ctx : S3EventNotificationContext) : Option EBEntry :=
  let entry : EBEntry := {
    source := "aws.s3"
    resources := ["arn:" ++ getPartition ctx.region ++ ":s3:::" ++ ctx.bucket_name]
    time := ctx.event_time
    traceHeader := none
    detailType := none
    detail := {
      version := "0"
      bucketName := ctx.bucket_name
      obj := { key := ctx.key_name, size := some ctx.key_size, etag := some ctx.key_etag,
               sequencer := some "0062E99A88DC407460", versionId := none }
      requestId := ctx.request_id
      requester := "074255357339"
      sourceIpAddress := some "127.0.0.1"
      reason := none
      deletionType := none
      sourceStorageClass := none
      restoreExpiryTime := none } }
  let entry :=
    if optStrTruthy ctx.xray then { entry with traceHeader := ctx.xray } else entry
  let entry :=
    if versionTruthy ctx.key_version_id then
      { entry with detail := { entry.detail with
          obj := { entry.detail.obj with versionId := ctx.key_version_id } } }
    else entry
  if strContains ctx.event_type "ObjectCreated" then
    match afterLastColon ctx.event_type with
    | none => none
    | some eventAction =>
      let reason :=
        if eventAction ∈ ["Put", "Post", "Copy"] then eventAction ++ "Object"
        else ctx.event_type
      some { entry with detailType := some "Object Created",
                        detail := { entry.detail with reason := some reason } }
  else if strContains ctx.event_type "ObjectRemoved" then
    let detail := { entry.detail with reason := some "DeleteObject" }
    let detail :=
      if strContains ctx.event_type "DeleteMarkerCreated" then
        { detail with deletionType := some "Delete Marker Created" }
      else
        { detail with deletionType := some "Permanently Deleted",
                      obj := { detail.obj with etag := none } }
    some { entry with detailType := some "Object Deleted",
                      detail := { detail with obj := { detail.obj with size := none } } }
  else if strContains ctx.event_type "ObjectTagging" then
    some { entry with
           detailType := some (if strContains ctx.event_type "Put" then "Object Tags Added"
                               else "Object Tags Deleted") }
  else if strContains ctx.event_type "ObjectAcl" then
    some { entry with detailType := some "Object ACL Updated",
                      detail := { entry.detail with
                        obj := { entry.detail.obj with size := none, sequencer := none } } }
  else if strContains ctx.event_type "ObjectRestore" then
    let entry := { entry with
      detailType :=
        some (if strContains ctx.event_type "Post" then "Object Restore Initiated"
              else "Object Restore Completed"),
      detail := { entry.detail with
        sourceStorageClass := some ctx.key_storage_class,
        obj := { entry.detail.obj with sequencer := none } } }
    if strEnds ctx.event_type "Completed" then
      some { entry with
        detail := { entry.detail with
          restoreExpiryTime := some (timestampMillis ctx.key_expiry),
          sourceIpAddress := none },
        time := entry.time + 1000 }
    else some entry
  else some entry

/-! ## Dispatcher (`NotificationDispatcher.send_notifications`) -/

/-- A task handed to the worker pool: which notifier's `notify` gets submitted
with which configuration entry.  The model records submissions only — no
delivery outcome exists in the type, matching the fire-and-forget contract. -/
inductive SubmittedTask where
  | toQueue (entry : NotifConfigEntry)
  | toTopic (entry : NotifConfigEntry)
  | toLambda (entry : NotifConfigEntry)
  | toEventBridge (entry : NotifConfigEntry)
deriving DecidableEq

/-- The inner `for config in configurations` loop of `send_notifications` for
one destination kind: submit a task for every entry whose `should_notify` is
true.  `none` when `should_notify` raises. -/
def submitAll (shouldN : NotifConfigEntry → Option Bool) (mk : NotifConfigEntry → SubmittedTask) :
    List NotifConfigEntry → Option (List SubmittedTask)
  | [] => some []
  | e :: rest =>
    match shouldN e with
    | none => none
    | some b =>
      match submitAll shouldN mk rest with
      | none => none
      | some ts => some (if b then mk e :: ts else ts)

/-- One destination kind of `send_notifications`: keys absent from the
configuration mapping are not iterated; present keys are skipped (with a
warning) when the kind's backing service is not enabled. -/
def kindTasks (apiEnabled : String → Bool) (service : String)
    (shouldN : NotifConfigEntry → Option Bool) (mk : NotifConfigEntry → SubmittedTask)
    (entries : Option (List NotifConfigEntry)) : Option (List SubmittedTask) :=
  match entries with
  | none => some []
  | some es => if apiEnabled service then submitAll shouldN mk es else some []

/-- `NotificationDispatcher.send_notifications(ctx, notification_config)`,
parametrized by the `is_api_enabled` capability query.  The result is the list
of tasks submitted to the worker pool (all submitted before the call returns);
`none` when a `should_notify` call raises.  The EventBridge configuration is
wrapped into a single-entry list and its `should_notify` is constantly
true. -/
def sendNotifications (apiEnabled : String → Bool) (ctx : S3EventNotificationContext)
    (cfg : NotificationConfiguration) : Option (List SubmittedTask) :=
  match kindTasks apiEnabled "sqs" (shouldNotify ctx) .toQueue cfg.queueConfigurations with
  | none => none
  | some t1 =>
    match kindTasks apiEnabled "sns" (shouldNotify ctx) .toTopic cfg.topicConfigurations with
    | none => none
    | some t2 =>
      match kindTasks apiEnabled "lambda" (shouldNotify ctx) .toLambda
          cfg.lambdaFunctionConfigurations with
      | none => none
      | some t3 =>
        match kindTasks apiEnabled "events" (fun _ => some true) .toEventBridge
            (cfg.eventBridgeConfiguration.map fun c => [c]) with
        | none => none
        | some t4 => some (t1 ++ t2 ++ t3 ++ t4)

/-! ## Validation (`BaseNotifier._validate_notification`) -/

/-- Normalization applied to a filter rule before it is checked:
`rule["Name"] = rule["Name"].capitalize()`. -/
def normRule (r : FilterRule) : FilterRule := { r with name := pyCapitalize r.name }

/-- A filter rule acceptable to validation: capitalized name exactly
`"Prefix"` or `"Suffix"` and a non-empty value. -/
def goodRule (r : FilterRule) : Bool :=
  (pyCapitalize r.name == "Prefix" || pyCapitalize r.name == "Suffix") && r.value != ""

/-- The filter-rule loop of `_validate_notification`: each rule's name is
capitalized in place, then the rule is checked.  On failure the error is
returned together with the rules list as mutated so far (earlier rules and the
offending rule normalized, later rules untouched); on success the fully
normalized list is returned. -/
def validateRules : List FilterRule → Except (InvalidArgument × List FilterRule) (List FilterRule)
  | [] => .ok []
  | r :: rest =>
    let r1 := normRule r
    if r1.name ∉ ["Suffix", "Prefix"] then
      .error ({ message := "filter rule name must be either prefix or suffix",
                argName := r1.name, argValue := r1.value }, r1 :: rest)
    else if r1.value = "" then
      .error ({ message := "filter value cannot be empty",
                argName := r1.name, argValue := r1.value }, r1 :: rest)
    else
      match validateRules rest with
      | .error (e, rest1) => .error (e, r1 :: rest1)
      | .ok rest1 => .ok (r1 :: rest1)

/-- Outcome of `_validate_notification`: the raised error (`none` when the
call returns normally), the configuration entry as mutated in place, and
whether `_verify_target` was invoked. -/
structure ValidationOutcome where
  raised : Option InvalidArgument
  config : NotifConfigEntry
  targetVerified : Bool
deriving DecidableEq

/-- The filter-rule stage of `_validate_notification` (everything after the
ARN and target checks). -/
def validateRulesStage (cfg1 : NotifConfigEntry) (verified : Bool) : ValidationOutcome :=
  match cfg1.filter with
  | none => { raised := none, config := cfg1, targetVerified := verified }
  | some rules =>
    if rules.isEmpty then { raised := none, config := cfg1, targetVerified := verified }
    else
      match validateRules rules with
      | .error (e, rules1) =>
        { raised := some e, config := { cfg1 with filter := some rules1 },
          targetVerified := verified }
      | .ok rules1 =>
        { raised := none, config := { cfg1 with filter := some rules1 },
          targetVerified := verified }

/-- `BaseNotifier._validate_notification(verification_ctx)` for a notifier
with the given `service_name` and ARN argument name, parametrized by the
outcome of `_verify_target` (`some e` = the live check raises `e`) and by the
`short_uid()` generated for a missing `Id`.  Steps, in source order: assign a
generated id if the entry has none; check the ARN pattern; unless
`skip_destination_validation`, run the live target check; then normalize and
check the filter rules. -/
def validateNotification (serviceName argName : String)
    (verifyTarget : String → Option InvalidArgument)
    (freshId : String) (skip : Bool) (cfg : NotifConfigEntry) : ValidationOutcome :=
  let cfg1 := if optStrTruthy cfg.id then cfg else { cfg with id := some freshId }
  if !arnMatch serviceName cfg1.arn then
    { raised := some { message := "The ARN could not be parsed",
                       argName := argName, argValue := cfg1.arn },
      config := cfg1, targetVerified := false }
  else if skip then
    validateRulesStage cfg1 false
  else
    match verifyTarget cfg1.arn with
    | some e => { raised := some e, config := cfg1, targetVerified := true }
    | none => validateRulesStage cfg1 true

/-! ## Sample values used by witnesses and counterexamples -/

/-- A sample event context (an `ObjectCreated:Put` on a versioned object). -/
def sampleCtx : S3EventNotificationContext := {
  request_id := "req-1"
  event_type := "s3:ObjectCreated:Put"
  event_time := 1700000000000
  account_id := "000000000000"
  region := "us-east-1"
  bucket_name := "bucket"
  key_name := "images/cat.png"
  xray := none
  bucket_location := "us-east-1"
  bucket_account_id := "000000000000"
  caller := "000000000000"
  key_size := 5
  key_etag := "d41d8cd98f00b204e9800998ecf8427e"
  key_version_id := some "v1"
  key_expiry := 1700000100000
  key_storage_class := some "GLACIER" }

/-- The sample context with a completed-restore event type. -/
def sampleRestoreCtx : S3EventNotificationContext :=
  { sampleCtx with event_type := "s3:ObjectRestore:Completed" }

/-- The sample context with a delete event type. -/
def sampleDeleteCtx : S3EventNotificationContext :=
  { sampleCtx with event_type := "s3:ObjectRemoved:Delete" }

/-- The sample context with an empty event type (unmapped operation). -/
def sampleEmptyEventCtx : S3EventNotificationContext :=
  { sampleCtx with event_type := "" }

/-- A sample queue configuration entry. -/
def sampleEntry : NotifConfigEntry := {
  id := some "config-1"
  arn := "arn:aws:sqs:us-east-1:000000000000:queue"
  events := ["s3:ObjectCreated:*"]
  filter := none }

/-- A sample configuration mapping holding only the sample queue entry. -/
def sampleConfiguration : NotificationConfiguration := {
  queueConfigurations := some [sampleEntry]
  topicConfigurations := none
  lambdaFunctionConfigurations := none
  eventBridgeConfiguration := none }

/-! ## Helper lemmas -/

theorem versionTruthy_iff (kv : Option String) :
    versionTruthy kv = true ↔ ∃ v, kv = some v ∧ v ≠ "" ∧ v ≠ "null" := by
  cases kv <;> simp [versionTruthy]

theorem beforeLastColon_isSome (s : String) (h : ':' ∈ s.data) :
    beforeLastColon s =
      some (String.mk (((s.data.reverse).dropWhile (fun c => c ≠ ':')).tail.reverse)) := by
  unfold beforeLastColon
  rw [if_pos h]

/-! ## Claim theorems -/

/-- C1: for every selector list `S` and event type `E` (any event type has a
colon), `_matching_event(S, E)` returns (rather than raising), and returns
true iff `E` is literally an element of `S` or `S` contains the wildcard
obtained by truncating `E` to everything before its last colon followed by
`":*"`. -/
theorem matching_event_iff (S : List String) (E : String) (h : ':' ∈ E.data) :
    (matchingEvent S E).isSome = true ∧
      (matchingEvent S E = some true ↔
        (E ∈ S ∨ ((beforeLastColon E).getD "" ++ ":*") ∈ S)) := by
  unfold matchingEvent
  rw [beforeLastColon_isSome E h]
  by_cases hE : E ∈ S
  · simp [hE]
  · simp [hE, beforeLastColon_isSome E h]

/-- C1 witness: the spec's examples, settled through `matching_event_iff`. -/
theorem matching_event_iff_witness :
    matchingEvent ["s3:ObjectCreated:*"] "s3:ObjectCreated:Put" = some true ∧
    matchingEvent ["s3:ObjectCreated:*"] "s3:ObjectRemoved:Delete" ≠ some true := by
  constructor
  · exact (matching_event_iff ["s3:ObjectCreated:*"] "s3:ObjectCreated:Put"
      (by decide)).2.mpr (Or.inr (by decide))
  · intro hc
    have h2 := (matching_event_iff ["s3:ObjectCreated:*"] "s3:ObjectRemoved:Delete"
      (by decide)).2.mp hc
    revert h2
    decide

/-- C2: `_matching_filter` returns true iff every Prefix rule's value is a
literal prefix of the key name and every Suffix rule's value is a literal
suffix of it (rule names are case-insensitive, per the data model); an absent
filter (`none`) or an empty rule list satisfies the right-hand side
vacuously and always matches. -/
theorem matching_filter_iff (nf : Option (List FilterRule)) (key : String) :
    matchingFilter nf key = true ↔
      ∀ rules, nf = some rules → ∀ r ∈ rules,
        (pyLower r.name = "prefix" → strStarts key r.value = true) ∧
        (pyLower r.name = "suffix" → strEnds key r.value = true) := by
  cases nf with
  | none => simp [matchingFilter]
  | some rules =>
    simp only [matchingFilter, Option.some.injEq, List.all_eq_true]
    constructor
    · intro hall rules1 hinj
      cases hinj
      intro r hr
      have hp := hall r hr
      by_cases h1 : pyLower r.name = "prefix" <;>
        by_cases h3 : pyLower r.name = "suffix" <;>
        by_cases h2 : strStarts key r.value <;>
        by_cases h4 : strEnds key r.value <;>
        simp_all
    · intro hall r hr
      have hp := hall rules rfl r hr
      by_cases h1 : pyLower r.name = "prefix" <;>
        by_cases h3 : pyLower r.name = "suffix" <;>
        by_cases h2 : strStarts key r.value <;>
        by_cases h4 : strEnds key r.value <;>
        simp_all

/-- C9: `_matching_event` is partial at the public interface.  When the event
type is not literally in the selector list and contains no colon — in
particular the empty event type that `from_request_context_native` stores for
operations missing from `EVENT_OPERATION_MAP` — the call raises `ValueError`
(modelled `none`) instead of returning false, and the raise propagates
through `should_notify` and `send_notifications`. -/
theorem matching_event_raises :
    (∀ (S : List String) (E : String), ':' ∉ E.data → E ∉ S → matchingEvent S E = none) ∧
    (∀ op : String, eventOperationMap.lookup op = none → eventTypeForOperation op = "") ∧
    (∀ (ctx : S3EventNotificationContext) (entry : NotifConfigEntry),
      ':' ∉ ctx.event_type.data → ctx.event_type ∉ entry.events →
      shouldNotify ctx entry = none) ∧
    (∀ (apiEnabled : String → Bool) (ctx : S3EventNotificationContext)
      (cfg : NotificationConfiguration) (entry : NotifConfigEntry)
      (rest : List NotifConfigEntry),
      cfg.queueConfigurations = some (entry :: rest) → apiEnabled "sqs" = true →
      ':' ∉ ctx.event_type.data → ctx.event_type ∉ entry.events →
      sendNotifications apiEnabled ctx cfg = none) := by
  have h1 : ∀ (S : List String) (E : String), ':' ∉ E.data → E ∉ S →
      matchingEvent S E = none := by
    intro S E hc hE
    unfold matchingEvent beforeLastColon
    rw [if_neg hE, if_neg hc]
  have h3 : ∀ (ctx : S3EventNotificationContext) (entry : NotifConfigEntry),
      ':' ∉ ctx.event_type.data → ctx.event_type ∉ entry.events →
      shouldNotify ctx entry = none := by
    intro ctx entry hc hE
    unfold shouldNotify
    rw [h1 entry.events ctx.event_type hc hE]
  refine ⟨h1, ?_, h3, ?_⟩
  · intro op h
    unfold eventTypeForOperation
    rw [h]
    rfl
  · intro apiEnabled ctx cfg entry rest hq hen hc hE
    unfold sendNotifications kindTasks
    rw [hq]
    simp only [hen, if_pos]
    unfold submitAll
    rw [h3 ctx entry hc hE]

/-- C9 witness: a queue configuration listening for `s3:ObjectCreated:*`
receives an event whose operation (`GetObject`) is unmapped, so the event
type is `""` and dispatch raises. -/
theorem matching_event_raises_witness :
    matchingEvent ["s3:ObjectCreated:*"] "" = none ∧
    eventTypeForOperation "GetObject" = "" ∧
    shouldNotify sampleEmptyEventCtx sampleEntry = none ∧
    sendNotifications (fun _ => true) sampleEmptyEventCtx sampleConfiguration = none := by
  refine ⟨matching_event_raises.1 _ _ (by decide) (by decide),
          matching_event_raises.2.1 _ (by decide),
          matching_event_raises.2.2.1 _ _ (by decide) (by decide),
          matching_event_raises.2.2.2 (fun _ => true) sampleEmptyEventCtx sampleConfiguration
            sampleEntry [] rfl rfl (by decide) (by decide)⟩

theorem submitAll_mem (sn : NotifConfigEntry → Option Bool)
    (mk : NotifConfigEntry → SubmittedTask) :
    ∀ (es : List NotifConfigEntry) (ts : List SubmittedTask),
      submitAll sn mk es = some ts →
      ∀ t, t ∈ ts ↔ ∃ e ∈ es, sn e = some true ∧ t = mk e := by
  intro es
  induction es with
  | nil =>
    intro ts h t
    unfold submitAll at h
    injection h with h
    subst h
    simp
  | cons e rest ih =>
    intro ts h t
    unfold submitAll at h
    cases hsn : sn e with
    | none => rw [hsn] at h; cases h
    | some b =>
      rw [hsn] at h
      cases hrest : submitAll sn mk rest with
      | none => rw [hrest] at h; cases h
      | some ts1 =>
        rw [hrest] at h
        injection h with h
        subst h
        have hmem := ih ts1 hrest t
        cases b with
        | false =>
          rw [if_neg (by simp)]
          rw [hmem]
          constructor
          · rintro ⟨e1, he1, hs1, ht⟩
            exact ⟨e1, List.mem_cons_of_mem _ he1, hs1, ht⟩
          · rintro ⟨e1, he1, hs1, ht⟩
            rcases List.mem_cons.mp he1 with rfl | he1
            · rw [hsn] at hs1; cases hs1
            · exact ⟨e1, he1, hs1, ht⟩
        | true =>
          rw [if_pos rfl]
          constructor
          · intro ht
            rcases List.mem_cons.mp ht with rfl | ht1
            · exact ⟨e, List.mem_cons_self e rest, hsn, rfl⟩
            · rcases hmem.mp ht1 with ⟨e1, he1, hs1, ht3⟩
              exact ⟨e1, List.mem_cons_of_mem _ he1, hs1, ht3⟩
          · rintro ⟨e1, he1, hs1, ht1⟩
            rcases List.mem_cons.mp he1 with rfl | he1
            · subst ht1; exact List.mem_cons_self _ _
            · exact List.mem_cons_of_mem _ (hmem.mpr ⟨e1, he1, hs1, ht1⟩)

theorem kindTasks_mem (apiEnabled : String → Bool) (service : String)
    (sn : NotifConfigEntry → Option Bool) (mk : NotifConfigEntry → SubmittedTask)
    (entries : Option (List NotifConfigEntry)) (ts : List SubmittedTask)
    (h : kindTasks apiEnabled service sn mk entries = some ts) (t : SubmittedTask) :
    t ∈ ts ↔ ∃ es, entries = some es ∧ apiEnabled service = true ∧
      ∃ e ∈ es, sn e = some true ∧ t = mk e := by
  cases entries with
  | none =>
    unfold kindTasks at h
    injection h with h
    subst h
    simp
  | some es =>
    simp only [kindTasks] at h
    by_cases hen : apiEnabled service = true
    · rw [if_pos hen] at h
      rw [submitAll_mem sn mk es ts h t]
      simp [hen]
    · rw [if_neg hen] at h
      injection h with h
      subst h
      simp [hen]

theorem sendNotifications_parts (apiEnabled : String → Bool)
    (ctx : S3EventNotificationContext) (cfg : NotificationConfiguration)
    (ts : List SubmittedTask) (h : sendNotifications apiEnabled ctx cfg = some ts) :
    ∃ t1 t2 t3 t4,
      kindTasks apiEnabled "sqs" (shouldNotify ctx) .toQueue cfg.queueConfigurations = some t1 ∧
      kindTasks apiEnabled "sns" (shouldNotify ctx) .toTopic cfg.topicConfigurations = some t2 ∧
      kindTasks apiEnabled "lambda" (shouldNotify ctx) .toLambda
        cfg.lambdaFunctionConfigurations = some t3 ∧
      kindTasks apiEnabled "events" (fun _ => some true) .toEventBridge
        (cfg.eventBridgeConfiguration.map fun c => [c]) = some t4 ∧
      ts = t1 ++ t2 ++ t3 ++ t4 := by
  unfold sendNotifications at h
  cases h1 : kindTasks apiEnabled "sqs" (shouldNotify ctx) .toQueue cfg.queueConfigurations with
  | none => rw [h1] at h; cases h
  | some t1 =>
    rw [h1] at h
    cases h2 : kindTasks apiEnabled "sns" (shouldNotify ctx) .toTopic
        cfg.topicConfigurations with
    | none => rw [h2] at h; cases h
    | some t2 =>
      rw [h2] at h
      cases h3 : kindTasks apiEnabled "lambda" (shouldNotify ctx) .toLambda
          cfg.lambdaFunctionConfigurations with
      | none => rw [h3] at h; cases h
      | some t3 =>
        rw [h3] at h
        cases h4 : kindTasks apiEnabled "events" (fun _ => some true) .toEventBridge
            (cfg.eventBridgeConfiguration.map fun c => [c]) with
        | none => rw [h4] at h; cases h
        | some t4 =>
          rw [h4] at h
          injection h with h
          exact ⟨t1, t2, t3, t4, rfl, rfl, rfl, rfl, h.symm⟩

/-- C3: under the hypothesis that no `should_notify` call raises,
`send_notifications` submits a delivery task for exactly those configuration
entries whose destination kind's backing service is enabled and whose
`should_notify` is true; an EventBridge configuration counts as a single,
unconditionally matching entry.  The model returns the complete list of
submissions (so all of them happen before the call returns) and contains no
delivery outcome that could be waited on or observed. -/
theorem send_notifications_exact (apiEnabled : String → Bool)
    (ctx : S3EventNotificationContext) (cfg : NotificationConfiguration)
    (ts : List SubmittedTask) (h : sendNotifications apiEnabled ctx cfg = some ts) :
    (∀ e, SubmittedTask.toQueue e ∈ ts ↔ ∃ l, cfg.queueConfigurations = some l ∧
      apiEnabled "sqs" = true ∧ e ∈ l ∧ shouldNotify ctx e = some true) ∧
    (∀ e, SubmittedTask.toTopic e ∈ ts ↔ ∃ l, cfg.topicConfigurations = some l ∧
      apiEnabled "sns" = true ∧ e ∈ l ∧ shouldNotify ctx e = some true) ∧
    (∀ e, SubmittedTask.toLambda e ∈ ts ↔ ∃ l, cfg.lambdaFunctionConfigurations = some l ∧
      apiEnabled "lambda" = true ∧ e ∈ l ∧ shouldNotify ctx e = some true) ∧
    (∀ e, SubmittedTask.toEventBridge e ∈ ts ↔ cfg.eventBridgeConfiguration = some e ∧
      apiEnabled "events" = true) := by
  obtain ⟨t1, t2, t3, t4, h1, h2, h3, h4, hts⟩ :=
    sendNotifications_parts apiEnabled ctx cfg ts h
  subst hts
  refine ⟨?_, ?_, ?_, ?_⟩ <;> intro e <;>
    simp only [List.mem_append] <;>
    rw [kindTasks_mem _ _ _ _ _ _ h1, kindTasks_mem _ _ _ _ _ _ h2,
        kindTasks_mem _ _ _ _ _ _ h3, kindTasks_mem _ _ _ _ _ _ h4] <;>
    simp

/-- C3 witness: with every service enabled, the sample configuration's single
queue entry matches the sample `ObjectCreated:Put` event and is submitted. -/
theorem send_notifications_exact_witness :
    SubmittedTask.toQueue sampleEntry ∈ [SubmittedTask.toQueue sampleEntry] := by
  exact ((send_notifications_exact (fun _ => true) sampleCtx sampleConfiguration
    [SubmittedTask.toQueue sampleEntry] (by decide)).1 sampleEntry).mpr
    ⟨[sampleEntry], rfl, rfl, by decide, by decide⟩

/-- C5: for a completed restore, the generic record's `eventTime` is exactly
500 milliseconds after the context's event time, and the record carries the
`glacierEventData` block with the restoration expiry time and the restore
storage class.  (Reasoning about time at millisecond precision, where the
source's format/parse round-trip of the timestamp is lossless.) -/
theorem record_restore_completed (ctx : S3EventNotificationContext)
    (configId : Option String) (freshRequestId : String)
    (h : ctx.event_type = "s3:ObjectRestore:Completed") :
    (getEventPayload ctx configId freshRequestId).eventTime = ctx.event_time + 500 ∧
    (getEventPayload ctx configId freshRequestId).glacierEventData =
      some { lifecycleRestorationExpiryTime := timestampMillis ctx.key_expiry,
             lifecycleRestoreStorageClass := ctx.key_storage_class } := by
  have hA : strContains (pyLower "s3:ObjectRestore:Completed") "created" = false := by decide
  have hB : strContains (pyLower "s3:ObjectRestore:Completed") "restore" = true := by decide
  have hC : strContains (pyLower "s3:ObjectRestore:Completed") "deletemarker" = false := by
    decide
  have hD : strContains "s3:ObjectRestore:Completed" "ObjectTagging" = false := by decide
  have hE : strContains "s3:ObjectRestore:Completed" "ObjectAcl" = false := by decide
  have hF : strContains (pyLower "s3:ObjectRestore:Completed") "objectrestore:completed"
      = true := by decide
  simp [getEventPayload, h, hA, hB, hC, hD, hE, hF, timestampMillis, parseTimestamp]
  split_ifs <;> simp [timestampMillis]

/-- C5 witness: the sample completed-restore context, with the concrete
500 ms offset visible. -/
theorem record_restore_completed_witness :
    (getEventPayload sampleRestoreCtx (some "config-1") "r").eventTime = 1700000000500 ∧
    (getEventPayload sampleRestoreCtx (some "config-1") "r").glacierEventData =
      some { lifecycleRestorationExpiryTime := 1700000100000,
             lifecycleRestoreStorageClass := some "GLACIER" } := by
  have := record_restore_completed sampleRestoreCtx (some "config-1") "r" (by decide)
  exact ⟨this.1.trans (by decide), this.2.trans (by decide)⟩

/-- C6: the generic record's object block has a `versionId` field iff the
context's version id is present (a Python-truthy string) and differs from the
literal `"null"`; and for an `ObjectRemoved:Delete` event the object block
carries neither `size` nor `eTag`. -/
theorem record_object_block (ctx : S3EventNotificationContext)
    (configId : Option String) (freshRequestId : String) :
    ((getEventPayload ctx configId freshRequestId).obj.versionId.isSome = true ↔
      ∃ v, ctx.key_version_id = some v ∧ v ≠ "" ∧ v ≠ "null") ∧
    (ctx.event_type = "s3:ObjectRemoved:Delete" →
      (getEventPayload ctx configId freshRequestId).obj.size = none ∧
      (getEventPayload ctx configId freshRequestId).obj.eTag = none) := by
  constructor
  · rw [← versionTruthy_iff]
    simp only [getEventPayload]
    split_ifs with h1 h2 h3 h4 h5 h6 h7 h8 h9 h10 h11 h12 <;>
      simp_all [versionTruthy_iff]
    all_goals
      first
        | assumption
        | (rcases ‹∃ v, ctx.key_version_id = some v ∧ ¬v = "" ∧ ¬v = "null"›
             with ⟨v, hv9, -, -⟩
           rw [hv9]
           rfl)
  · intro h
    have hA : strContains (pyLower "s3:ObjectRemoved:Delete") "created" = false := by decide
    have hB : strContains (pyLower "s3:ObjectRemoved:Delete") "restore" = false := by decide
    have hD : strContains "s3:ObjectRemoved:Delete" "ObjectTagging" = false := by decide
    have hE : strContains "s3:ObjectRemoved:Delete" "ObjectAcl" = false := by decide
    have hF : strContains (pyLower "s3:ObjectRemoved:Delete") "objectrestore:completed"
        = false := by decide
    simp [getEventPayload, h, hA, hB, hD, hE, hF]
    split_ifs <;> simp

/-- C6 witness: the sample delete context (versioned object, version id
`"v1"`) keeps `versionId` and drops `size` and `eTag`. -/
theorem record_object_block_witness :
    (getEventPayload sampleDeleteCtx (some "config-1") "r").obj.versionId.isSome = true ∧
    (getEventPayload sampleDeleteCtx (some "config-1") "r").obj.size = none ∧
    (getEventPayload sampleDeleteCtx (some "config-1") "r").obj.eTag = none := by
  have h := record_object_block sampleDeleteCtx (some "config-1") "r"
  exact ⟨h.1.mpr ⟨"v1", rfl, by decide, by decide⟩,
         (h.2 rfl).1, (h.2 rfl).2⟩

/-- C4 counterexample: the claim states the completed-restore event-bus
payload carries no source-storage-class field, but the source sets
`source-storage-class` for every restore event before the completed-only
additions, so the field is present (here with value `"GLACIER"`). -/
theorem eb_restore_completed_counterexample :
    (ebGetEventPayload sampleRestoreCtx).map (fun e => e.detail.sourceStorageClass) =
      some (some (some "GLACIER")) := by decide

/-- C4 (amended): for every restore event the event-bus payload drops the
object sequencer and carries a source-storage-class field; the initiated
sub-type has no restore-expiry-time and keeps the source-ip-address and the
original time, while the completed sub-type additionally carries
restore-expiry-time, drops source-ip-address, and has `Time` exactly 1 second
after the context's event time. -/
theorem eb_restore_payload (ctx : S3EventNotificationContext) :
    (ctx.event_type = "s3:ObjectRestore:Post" → ∃ e, ebGetEventPayload ctx = some e ∧
      e.detailType = some "Object Restore Initiated" ∧
      e.detail.obj.sequencer = none ∧
      e.detail.sourceStorageClass = some ctx.key_storage_class ∧
      e.detail.restoreExpiryTime = none ∧
      e.detail.sourceIpAddress = some "127.0.0.1" ∧
      e.time = ctx.event_time) ∧
    (ctx.event_type = "s3:ObjectRestore:Completed" → ∃ e, ebGetEventPayload ctx = some e ∧
      e.detailType = some "Object Restore Completed" ∧
      e.detail.obj.sequencer = none ∧
      e.detail.sourceStorageClass = some ctx.key_storage_class ∧
      e.detail.restoreExpiryTime = some (timestampMillis ctx.key_expiry) ∧
      e.detail.sourceIpAddress = none ∧
      e.time = ctx.event_time + 1000) := by
  constructor
  · intro h
    have c1 : strContains "s3:ObjectRestore:Post" "ObjectCreated" = false := by decide
    have c2 : strContains "s3:ObjectRestore:Post" "ObjectRemoved" = false := by decide
    have c3 : strContains "s3:ObjectRestore:Post" "ObjectTagging" = false := by decide
    have c4 : strContains "s3:ObjectRestore:Post" "ObjectAcl" = false := by decide
    have c5 : strContains "s3:ObjectRestore:Post" "ObjectRestore" = true := by decide
    have c6 : strContains "s3:ObjectRestore:Post" "Post" = true := by decide
    have c7 : strEnds "s3:ObjectRestore:Post" "Completed" = false := by decide
    simp [ebGetEventPayload, h, c1, c2, c3, c4, c5, c6, c7]
    split_ifs <;> simp
  · intro h
    have c1 : strContains "s3:ObjectRestore:Completed" "ObjectCreated" = false := by decide
    have c2 : strContains "s3:ObjectRestore:Completed" "ObjectRemoved" = false := by decide
    have c3 : strContains "s3:ObjectRestore:Completed" "ObjectTagging" = false := by decide
    have c4 : strContains "s3:ObjectRestore:Completed" "ObjectAcl" = false := by decide
    have c5 : strContains "s3:ObjectRestore:Completed" "ObjectRestore" = true := by decide
    have c6 : strContains "s3:ObjectRestore:Completed" "Post" = false := by decide
    have c7 : strEnds "s3:ObjectRestore:Completed" "Completed" = true := by decide
    simp [ebGetEventPayload, h, c1, c2, c3, c4, c5, c6, c7, timestampMillis]
    split_ifs <;> simp

/-- C4 witness: the amended claim evaluated on the sample contexts. -/
theorem eb_restore_payload_witness :
    (∃ e, ebGetEventPayload { sampleCtx with event_type := "s3:ObjectRestore:Post" } = some e ∧
      e.detailType = some "Object Restore Initiated" ∧
      e.detail.obj.sequencer = none ∧
      e.detail.sourceStorageClass = some (some "GLACIER") ∧
      e.detail.restoreExpiryTime = none ∧
      e.detail.sourceIpAddress = some "127.0.0.1" ∧
      e.time = 1700000000000) ∧
    (∃ e, ebGetEventPayload sampleRestoreCtx = some e ∧
      e.detailType = some "Object Restore Completed" ∧
      e.detail.obj.sequencer = none ∧
      e.detail.sourceStorageClass = some (some "GLACIER") ∧
      e.detail.restoreExpiryTime = some 1700000100000 ∧
      e.detail.sourceIpAddress = none ∧
      e.time = 1700000001000) := by
  constructor
  · rcases (eb_restore_payload { sampleCtx with event_type := "s3:ObjectRestore:Post" }).1
        rfl with ⟨e, he, h1, h2, h3, h4, h5, h6⟩
    exact ⟨e, he, h1, h2, h3, h4, h5, h6⟩
  · rcases (eb_restore_payload sampleRestoreCtx).2 rfl with ⟨e, he, h1, h2, h3, h4, h5, h6⟩
    exact ⟨e, he, h1, h2, h3, h4, h5, h6⟩

theorem goodRule_iff (r : FilterRule) :
    goodRule r = true ↔
      (pyCapitalize r.name = "Prefix" ∨ pyCapitalize r.name = "Suffix") ∧ r.value ≠ "" := by
  simp [goodRule, Bool.and_eq_true, Bool.or_eq_true]

theorem goodRule_name_ok (r : FilterRule) (h : goodRule r = true) :
    ¬ (normRule r).name ∉ ["Suffix", "Prefix"] := by
  rw [goodRule_iff] at h
  simp [normRule]
  tauto

theorem goodRule_value_ok (r : FilterRule) (h : goodRule r = true) :
    ¬ (normRule r).value = "" := by
  rw [goodRule_iff] at h
  simpa [normRule] using h.2


theorem validateRules_spec (rules : List FilterRule) :
    (∀ l, validateRules rules = .ok l →
      l = rules.map normRule ∧ ∀ r ∈ rules, goodRule r = true) ∧
    (∀ e st, validateRules rules = .error (e, st) →
      ∃ r ∈ rules, goodRule r = false ∧
        e.argName = pyCapitalize r.name ∧ e.argValue = r.value) ∧
    ((∀ r ∈ rules, goodRule r = true) → validateRules rules = .ok (rules.map normRule)) := by
  induction rules with
  | nil =>
    refine ⟨?_, ?_, ?_⟩
    · intro l hl
      injection hl with hl
      subst hl
      simp
    · intro e st hl
      cases hl
    · intro _
      simp [validateRules]
  | cons r rest ih =>
    by_cases h1 : (normRule r).name ∉ ["Suffix", "Prefix"]
    · refine ⟨?_, ?_, ?_⟩
      · intro l hl
        unfold validateRules at hl
        rw [if_pos h1] at hl
        cases hl
      · intro e st hl
        unfold validateRules at hl
        rw [if_pos h1] at hl
        injection hl with hl
        injection hl with he hst
        refine ⟨r, List.mem_cons_self r rest, ?_, ?_, ?_⟩
        · rw [← Bool.not_eq_true, goodRule_iff]
          simp only [normRule, List.mem_cons, List.not_mem_nil, or_false, not_or] at h1
          tauto
        · rw [← he]
          simp [normRule]
        · rw [← he]
          simp [normRule]
      · intro hall
        exact absurd h1 (goodRule_name_ok r (hall r (List.mem_cons_self r rest)))
    · by_cases h2 : (normRule r).value = ""
      · refine ⟨?_, ?_, ?_⟩
        · intro l hl
          unfold validateRules at hl
          rw [if_neg h1, if_pos h2] at hl
          cases hl
        · intro e st hl
          unfold validateRules at hl
          rw [if_neg h1, if_pos h2] at hl
          injection hl with hl
          injection hl with he hst
          refine ⟨r, List.mem_cons_self r rest, ?_, ?_, ?_⟩
          · rw [← Bool.not_eq_true, goodRule_iff]
            simp only [normRule] at h2
            tauto
          · rw [← he]
            simp [normRule]
          · rw [← he]
            simp [normRule]
        · intro hall
          exact absurd h2 (goodRule_value_ok r (hall r (List.mem_cons_self r rest)))
      · have h1m : (normRule r).name ∈ ["Suffix", "Prefix"] := not_not.mp h1
        cases hrec : validateRules rest with
        | error pair =>
          obtain ⟨e0, st0⟩ := pair
          refine ⟨?_, ?_, ?_⟩
          · intro l hl
            unfold validateRules at hl
            rw [if_neg h1, if_neg h2, hrec] at hl
            cases hl
          · intro e st hl
            unfold validateRules at hl
            rw [if_neg h1, if_neg h2, hrec] at hl
            injection hl with hl
            injection hl with he hst
            obtain ⟨r1, hr1, hg1, hn1, hv1⟩ := ih.2.1 e0 st0 hrec
            rw [← he]
            exact ⟨r1, List.mem_cons_of_mem _ hr1, hg1, hn1, hv1⟩
          · intro hall
            have hok := ih.2.2 fun q hq => hall q (List.mem_cons_of_mem _ hq)
            rw [hok] at hrec
            cases hrec
        | ok rest1 =>
          refine ⟨?_, ?_, ?_⟩
          · intro l hl
            unfold validateRules at hl
            rw [if_neg h1, if_neg h2, hrec] at hl
            injection hl with hl
            subst hl
            obtain ⟨hmap, hall⟩ := ih.1 rest1 hrec
            refine ⟨by simp [hmap], ?_⟩
            intro q hq
            rcases List.mem_cons.mp hq with rfl | hq
            · rw [goodRule_iff]
              refine ⟨?_, ?_⟩
              · simp only [normRule, List.mem_cons, List.not_mem_nil, or_false] at h1m
                tauto
              · simp only [normRule] at h2
                exact h2
            · exact hall q hq
          · intro e st hl
            unfold validateRules at hl
            rw [if_neg h1, if_neg h2, hrec] at hl
            cases hl
          · intro hall
            unfold validateRules
            rw [if_neg h1, if_neg h2, hrec]
            obtain ⟨hmap, -⟩ := ih.1 rest1 hrec
            subst hmap
            simp

theorem validateRules_error_state (r : FilterRule) (rest : List FilterRule)
    (hr : goodRule r = false) :
    ∀ pre : List FilterRule, (∀ p ∈ pre, goodRule p = true) →
      ∃ e, validateRules (pre ++ r :: rest) =
        .error (e, pre.map normRule ++ normRule r :: rest) := by
  intro pre
  induction pre with
  | nil =>
    intro _
    simp only [List.nil_append, List.map_nil]
    by_cases h1 : (normRule r).name ∉ ["Suffix", "Prefix"]
    · refine ⟨{ message := "filter rule name must be either prefix or suffix",
                argName := (normRule r).name, argValue := (normRule r).value }, ?_⟩
      unfold validateRules
      rw [if_pos h1]
    · have h2 : (normRule r).value = "" := by
        by_contra h2
        have hg : goodRule r = true := by
          rw [goodRule_iff]
          refine ⟨?_, by simpa [normRule] using h2⟩
          have h1m := not_not.mp h1
          simp only [normRule, List.mem_cons, List.not_mem_nil, or_false] at h1m
          tauto
        rw [hg] at hr
        cases hr
      refine ⟨{ message := "filter value cannot be empty",
                argName := (normRule r).name, argValue := (normRule r).value }, ?_⟩
      unfold validateRules
      rw [if_neg h1, if_pos h2]
  | cons p pre1 ih =>
    intro hall
    obtain ⟨e, he⟩ := ih fun q hq => hall q (List.mem_cons_of_mem _ hq)
    refine ⟨e, ?_⟩
    have hp := hall p (List.mem_cons_self p pre1)
    simp only [List.cons_append, List.map_cons]
    unfold validateRules
    rw [if_neg (goodRule_name_ok p hp), if_neg (goodRule_value_ok p hp), he]

theorem validateRulesStage_verified (c : NotifConfigEntry) (v : Bool) :
    (validateRulesStage c v).targetVerified = v := by
  cases hf : c.filter with
  | none => simp [validateRulesStage, hf]
  | some rules =>
    simp only [validateRulesStage, hf]
    by_cases he : rules.isEmpty
    · rw [if_pos he]
    · rw [if_neg he]
      cases hv : validateRules rules with
      | error pair => obtain ⟨e0, st0⟩ := pair; simp only [hv]
      | ok l => simp only [hv]

theorem validateRulesStage_raised (c : NotifConfigEntry) (v : Bool) :
    (validateRulesStage c v).raised = none ↔
      ∀ r ∈ c.filter.getD [], goodRule r = true := by
  cases hf : c.filter with
  | none => simp [validateRulesStage, hf]
  | some rules =>
    simp only [validateRulesStage, hf, Option.getD_some]
    by_cases he : rules.isEmpty
    · rw [if_pos he]
      simp [List.isEmpty_iff.mp he]
    · rw [if_neg he]
      cases hv : validateRules rules with
      | error pair =>
        obtain ⟨e0, st0⟩ := pair
        simp only [hv]
        constructor
        · intro hc
          cases hc
        · intro hall
          have hok := (validateRules_spec rules).2.2 hall
          rw [hok] at hv
          cases hv
      | ok l =>
        simp only [hv]
        constructor
        · intro _
          exact ((validateRules_spec rules).1 l hv).2
        · intro _
          trivial

theorem validateRulesStage_error (c : NotifConfigEntry) (v : Bool)
    (rules : List FilterRule) (hf : c.filter = some rules) (hne : rules.isEmpty = false)
    (e : InvalidArgument) (st : List FilterRule)
    (hv : validateRules rules = .error (e, st)) :
    validateRulesStage c v =
      { raised := some e, config := { c with filter := some st }, targetVerified := v } := by
  simp only [validateRulesStage, hf]
  rw [if_neg (by simp [hne]), hv]

/-- C7: filter-rule validation capitalizes each rule name (Python
`str.capitalize`, case-insensitive normalization) and succeeds exactly when
every rule's normalized name is `"Prefix"` or `"Suffix"` and every rule's
value is non-empty; on success all names are normalized, and on failure the
raised error carries the offending rule's normalized name and its value. -/
theorem validate_filter_rules (rules : List FilterRule) :
    ((∃ l, validateRules rules = .ok l) ↔
      ∀ r ∈ rules,
        (pyCapitalize r.name = "Prefix" ∨ pyCapitalize r.name = "Suffix") ∧ r.value ≠ "") ∧
    (∀ l, validateRules rules = .ok l → l = rules.map normRule) ∧
    (∀ e st, validateRules rules = .error (e, st) →
      ∃ r ∈ rules,
        ¬((pyCapitalize r.name = "Prefix" ∨ pyCapitalize r.name = "Suffix") ∧ r.value ≠ "") ∧
        e.argName = pyCapitalize r.name ∧ e.argValue = r.value) := by
  obtain ⟨hok, herr, hall⟩ := validateRules_spec rules
  refine ⟨⟨?_, ?_⟩, ?_, ?_⟩
  · rintro ⟨l, hl⟩ r hr
    rw [← goodRule_iff]
    exact (hok l hl).2 r hr
  · intro h
    exact ⟨_, hall fun r hr => (goodRule_iff r).mpr (h r hr)⟩
  · intro l hl
    exact (hok l hl).1
  · intro e st hl
    obtain ⟨r, hr, hg, hn, hv⟩ := herr e st hl
    refine ⟨r, hr, ?_, hn, hv⟩
    rw [← goodRule_iff]
    simp [hg]

/-- C7 witness: a rule named `"PREFIX"` with non-empty value is accepted and
normalized to `"Prefix"`; a rule named `"Middle"` is rejected. -/
theorem validate_filter_rules_witness :
    (∃ l, validateRules [{ name := "PREFIX", value := "images/" }] = .ok l) ∧
    ¬(∃ l, validateRules [{ name := "Middle", value := "v" }] = .ok l) ∧
    validateRules [{ name := "PREFIX", value := "images/" }] =
      .ok [{ name := "Prefix", value := "images/" }] := by
  refine ⟨(validate_filter_rules [{ name := "PREFIX", value := "images/" }]).1.mpr
      (by decide), ?_, ?_⟩
  · intro hex
    have hbad := (validate_filter_rules [{ name := "Middle", value := "v" }]).1.mp hex
      { name := "Middle", value := "v" } (by decide)
    revert hbad
    decide
  · obtain ⟨l, hl⟩ := (validate_filter_rules [{ name := "PREFIX", value := "images/" }]).1.mpr
      (by decide)
    have hmap := (validate_filter_rules [{ name := "PREFIX", value := "images/" }]).2.1 l hl
    rw [hl, hmap]
    exact congrArg Except.ok (by decide)

/-- C8: per-entry validation with `skip_destination_validation = true` never
invokes `_verify_target` (and its outcome is independent of the live-check
oracle), yet still raises the malformed-ARN error when the destination ARN
does not match the notifier's `arn:<partition>:<service>:` pattern, and
still validates the entry's filter rules. -/
theorem verify_configuration_skip (serviceName argName : String)
    (verifyTarget verifyTarget2 : String → Option InvalidArgument)
    (freshId : String) (cfg : NotifConfigEntry) :
    (validateNotification serviceName argName verifyTarget freshId true cfg).targetVerified
        = false ∧
    validateNotification serviceName argName verifyTarget freshId true cfg =
      validateNotification serviceName argName verifyTarget2 freshId true cfg ∧
    (arnMatch serviceName cfg.arn = false →
      (validateNotification serviceName argName verifyTarget freshId true cfg).raised =
        some { message := "The ARN could not be parsed", argName := argName,
               argValue := cfg.arn }) ∧
    (arnMatch serviceName cfg.arn = true →
      ((validateNotification serviceName argName verifyTarget freshId true cfg).raised
          = none ↔
        ∀ r ∈ cfg.filter.getD [], goodRule r = true)) := by
  have harn : (if optStrTruthy cfg.id then cfg
      else { cfg with id := some freshId }).arn = cfg.arn := by
    split_ifs <;> rfl
  have hfil : (if optStrTruthy cfg.id then cfg
      else { cfg with id := some freshId }).filter = cfg.filter := by
    split_ifs <;> rfl
  refine ⟨?_, rfl, ?_, ?_⟩
  · simp only [validateNotification]
    split_ifs <;>
      first
        | rfl
        | exact validateRulesStage_verified _ _
  · intro h
    simp [validateNotification, harn, h]
  · intro h
    simp only [validateNotification, harn, h]
    rw [if_neg (by simp), if_pos trivial, validateRulesStage_raised, hfil]

/-- C8 witness: with skipping enabled and a permanently failing live-check
oracle, a malformed ARN is still rejected and no target check happens. -/
theorem verify_configuration_skip_witness :
    (validateNotification "sqs" "QueueArn"
      (fun _ => some { message := "m", argName := "n", argValue := "v" }) "f" true
      { id := some "i", arn := "bad", events := [], filter := none }).targetVerified
        = false ∧
    (validateNotification "sqs" "QueueArn"
      (fun _ => some { message := "m", argName := "n", argValue := "v" }) "f" true
      { id := some "i", arn := "bad", events := [], filter := none }).raised =
      some { message := "The ARN could not be parsed", argName := "QueueArn",
             argValue := "bad" } := by
  have h := verify_configuration_skip "sqs" "QueueArn"
    (fun _ => some { message := "m", argName := "n", argValue := "v" }) (fun _ => none) "f"
    { id := some "i", arn := "bad", events := [], filter := none }
  exact ⟨h.1, h.2.2.1 (by decide)⟩

/-- C10: per-entry validation mutates the entry before failing — a missing
`Id` is assigned the generated one before the ARN check fails, and each rule
name is capitalized in sequence before the rule is checked, so a validation
error leaves earlier rules (and the offending rule) normalized while later
rules are untouched. -/
theorem validate_notification_mutates (serviceName argName : String)
    (verifyTarget : String → Option InvalidArgument) (freshId : String) :
    (∀ (skip : Bool) (cfg : NotifConfigEntry), optStrTruthy cfg.id = false →
      arnMatch serviceName cfg.arn = false →
      (validateNotification serviceName argName verifyTarget freshId skip cfg).raised =
        some { message := "The ARN could not be parsed", argName := argName,
               argValue := cfg.arn } ∧
      (validateNotification serviceName argName verifyTarget freshId skip cfg).config.id =
        some freshId) ∧
    (∀ (cfg : NotifConfigEntry) (pre : List FilterRule) (r : FilterRule)
        (rest : List FilterRule),
      cfg.filter = some (pre ++ r :: rest) →
      arnMatch serviceName cfg.arn = true →
      (∀ p ∈ pre, goodRule p = true) → goodRule r = false →
      ∃ e, (validateNotification serviceName argName verifyTarget freshId true cfg).raised =
          some e ∧
        (validateNotification serviceName argName verifyTarget freshId true cfg).config.filter
          = some (pre.map normRule ++ normRule r :: rest)) := by
  constructor
  · intro skip cfg hid harnF
    have hc1 : (if optStrTruthy cfg.id then cfg else { cfg with id := some freshId }) =
        { cfg with id := some freshId } := by
      rw [if_neg (by simp [hid])]
    constructor <;> simp [validateNotification, hc1, harnF]
  · intro cfg pre r rest hf harnT hpre hr
    obtain ⟨e, he⟩ := validateRules_error_state r rest hr pre hpre
    refine ⟨e, ?_⟩
    have harn1 : (if optStrTruthy cfg.id then cfg
        else { cfg with id := some freshId }).arn = cfg.arn := by
      split_ifs <;> rfl
    have hfil1 : (if optStrTruthy cfg.id then cfg
        else { cfg with id := some freshId }).filter = cfg.filter := by
      split_ifs <;> rfl
    have hne : (pre ++ r :: rest).isEmpty = false := by
      cases pre <;> rfl
    have hstage := validateRulesStage_error
      (if optStrTruthy cfg.id then cfg else { cfg with id := some freshId }) false
      (pre ++ r :: rest) (hfil1.trans hf) hne e _ he
    simp only [validateNotification, harn1, harnT]
    rw [if_neg (by simp), if_pos trivial, hstage]
    exact ⟨rfl, rfl⟩

/-- C10 witness: a missing id is generated on a rejected entry, and a
rejected filter list comes back partially normalized (`"PREFIX"` → `"Prefix"`,
offending `"Middle"` capitalized in place, trailing `"suffix"` untouched). -/
theorem validate_notification_mutates_witness :
    ((validateNotification "sqs" "QueueArn" (fun _ => none) "fresh" true
        { id := none, arn := "bad-arn", events := [], filter := none }).raised =
      some { message := "The ARN could not be parsed", argName := "QueueArn",
             argValue := "bad-arn" } ∧
     (validateNotification "sqs" "QueueArn" (fun _ => none) "fresh" true
        { id := none, arn := "bad-arn", events := [], filter := none }).config.id =
      some "fresh") ∧
    (∃ e, (validateNotification "sqs" "QueueArn" (fun _ => none) "fresh" true
        { id := some "i", arn := "arn:aws:sqs:us-east-1:1:q", events := [],
          filter := some [{ name := "PREFIX", value := "a" }, { name := "Middle", value := "v" },
                          { name := "suffix", value := "y" }] }).raised = some e ∧
      (validateNotification "sqs" "QueueArn" (fun _ => none) "fresh" true
        { id := some "i", arn := "arn:aws:sqs:us-east-1:1:q", events := [],
          filter := some [{ name := "PREFIX", value := "a" }, { name := "Middle", value := "v" },
                          { name := "suffix", value := "y" }] }).config.filter =
        some [{ name := "Prefix", value := "a" }, { name := "Middle", value := "v" },
              { name := "suffix", value := "y" }]) := by
  constructor
  · exact (validate_notification_mutates "sqs" "QueueArn" (fun _ => none) "fresh").1 true
      { id := none, arn := "bad-arn", events := [], filter := none } (by decide) (by decide)
  · obtain ⟨e, h1, h2⟩ := (validate_notification_mutates "sqs" "QueueArn"
      (fun _ => none) "fresh").2
      { id := some "i", arn := "arn:aws:sqs:us-east-1:1:q", events := [],
        filter := some [{ name := "PREFIX", value := "a" }, { name := "Middle", value := "v" },
                        { name := "suffix", value := "y" }] }
      [{ name := "PREFIX", value := "a" }] { name := "Middle", value := "v" }
      [{ name := "suffix", value := "y" }] rfl (by decide) (by decide) (by decide)
    exact ⟨e, h1, h2.trans (by decide)⟩
